import Mathlib

/-!
Shallow embedding of `src/scrap1.py` (class `StreamlitWebScraper`, method
`scrape_page`, lines 23-64), the extraction core of the repository.

The HTML document is modelled as a tree of element and text nodes (the result
of `BeautifulSoup(response.content, "html.parser")`).  The BeautifulSoup
operations the source calls — `find_all`, `get_text(strip=True)`, `.title`,
`.string`, `select` — and the standard-library `urllib.parse.urljoin` are
modelled as Lean functions with the semantics of those libraries on the
fragment of inputs the claims exercise; `urljoin` is a direct transcription of
the CPython implementation (with the rarely used `;params` component elided,
i.e. treated as always empty).  `select` covers the fragment of the
soupsieve CSS grammar made of type, universal, id and class simple
selectors, compound selectors built from them, and the descendant and child
combinators; a selector that is invalid in any CSS (empty, digit-leading
name, dangling combinator, bad identifier) is a syntax error, as soupsieve
raises SelectorSyntaxError on malformed input, while valid CSS syntax
beyond the fragment (attribute brackets, pseudo-classes, grouping commas,
sibling combinators) is outside the model and not exercised by any claim.
Machine integers do not occur (the only integer is an HTTP status code, a
small natural number).
-/

namespace Scrapping

/-! ### String primitives

Wrappers with the semantics of the Python string operations the program and
its libraries use, written as structural recursion over the character list
of a string (a Lean string is a structure holding that list), so that every
definition in this development evaluates inside the kernel. -/

/-- Split a character list at every occurrence of a separator character,
Python `s.split(sep)`: always at least one (possibly empty) group. -/
def splitOnChar (sep : Char) : List Char → List (List Char)
  | [] => [[]]
  | c :: rest =>
    let r := splitOnChar sep rest
    if c == sep then [] :: r
    else
      match r with
      | [] => [[c]]
      | g :: gs => (c :: g) :: gs

/-- Interleave a separator character between groups, Python `sep.join`. -/
def joinWith (sep : Char) : List (List Char) → List Char
  | [] => []
  | [g] => g
  | g :: gs => g ++ sep :: joinWith sep gs

/-- Python `s.split(sep)` on strings, for a one-character separator. -/
def strSplit (s : String) (sep : Char) : List String :=
  (splitOnChar sep s.data).map (fun g => ⟨g⟩)

/-- Python `sep.join(xs)` for a one-character separator. -/
def strJoin (sep : Char) (xs : List String) : String :=
  ⟨joinWith sep (xs.map String.data)⟩

/-- Concatenation of a list of strings. -/
def strConcat (xs : List String) : String :=
  ⟨(xs.map String.data).flatten⟩

/-- Python `s.startswith(p)`. -/
def strStartsWith (s p : String) : Bool :=
  p.data.isPrefixOf s.data

/-- Drop the first `n` characters of a string. -/
def strDrop (s : String) (n : Nat) : String :=
  ⟨s.data.drop n⟩

/-- The longest prefix whose characters satisfy a predicate. -/
def strTakeWhile (p : Char → Bool) (s : String) : String :=
  ⟨s.data.takeWhile p⟩

/-- The remainder `strTakeWhile` leaves. -/
def strDropWhile (p : Char → Bool) (s : String) : String :=
  ⟨s.data.dropWhile p⟩

/-- Python `s.lower()` on ASCII. -/
def strToLower (s : String) : String :=
  ⟨s.data.map Char.toLower⟩

/-- Python `s.strip()`: surrounding whitespace removed from both ends. -/
def pyStrip (s : String) : String :=
  ⟨((s.data.dropWhile Char.isWhitespace).reverse.dropWhile
      Char.isWhitespace).reverse⟩

mutual
/-- A parsed HTML node: an element with tag name, attributes and children
(attribute order and multiplicity as in the document, first occurrence wins
on lookup, matching the dict BeautifulSoup builds), or a text node.  The
children are a `NodeList` — an inline copy of `List Node` — so that every
traversal below is structural and evaluates inside the kernel. -/
inductive Node where
  | elem (tag : String) (attrs : List (String × String)) (children : NodeList)
  | text (s : String)
/-- A sequence of sibling nodes. -/
inductive NodeList where
  | nil
  | cons (n : Node) (rest : NodeList)
end

/-- Build a sibling sequence from a plain list. -/
def NodeList.ofList : List Node → NodeList
  | [] => .nil
  | n :: rest => .cons n (NodeList.ofList rest)

/-- A parsed document: the top-level sequence of nodes. -/
abbrev Doc := NodeList

/-- Attribute lookup with default, modelling `tag.get(key, default)`. -/
def attrGet (attrs : List (String × String)) (k d : String) : String :=
  match attrs.find? (fun p => p.1 == k) with
  | some p => p.2
  | none => d

/-- Attribute lookup `tag.get(key, default)` on a node (text nodes have no attributes). -/
def nodeAttr : Node → String → String → String
  | .elem _ attrs _, k, d => attrGet attrs k d
  | .text _, _, d => d

/-- Whether the node is an element carrying the given attribute, modelling the
`attr=True` filters of `find_all` (e.g. `soup.find_all("a", href=True)`). -/
def nodeHasAttr : Node → String → Bool
  | .elem _ attrs _, k => attrs.any (fun p => p.1 == k)
  | .text _, _ => false

/-- The tag name of an element node; text nodes get the empty name, which no
tag filter in the source mentions. -/
def nodeTag : Node → String
  | .elem t _ _ => t
  | .text _ => ""

mutual
/-- All text fragments under one node, in document order. -/
def texts_node : Node → List String
  | .text s => [s]
  | .elem _ _ cs => texts cs
/-- All text fragments under a sibling sequence, in document order. -/
def texts : NodeList → List String
  | .nil => []
  | .cons n rest => texts_node n ++ texts rest
end

/-- Model of `node.get_text(strip=True)`: every descendant text fragment stripped of
surrounding whitespace and concatenated in document order (stripped-empty
fragments contribute the empty string, as in BeautifulSoup). -/
def get_text_strip (n : Node) : String :=
  strConcat ((texts_node n).map pyStrip)

mutual
/-- Model of `soup.find_all(...)` on one node, restricted to a Boolean element
predicate: the node itself when it is an element satisfying the predicate,
followed by the matches among its descendants, in document order. -/
def find_all_node (p : Node → Bool) : Node → List Node
  | .text _ => []
  | .elem t a cs =>
      (if p (.elem t a cs) then [Node.elem t a cs] else []) ++ find_all p cs
/-- Model of `soup.find_all(...)` restricted to a Boolean element predicate: every
element node of the forest satisfying the predicate, in document order
(pre-order, the order BeautifulSoup yields).  Translated from the calls at
src/scrap1.py lines 40 and 51-56. -/
def find_all (p : Node → Bool) : NodeList → List Node
  | .nil => []
  | .cons n rest => find_all_node p n ++ find_all p rest
end

mutual
/-- All element nodes of one node in document (pre-order) order. -/
def elems_node : Node → List Node
  | .text _ => []
  | .elem t a cs => Node.elem t a cs :: elems cs
/-- All element nodes of a forest in document (pre-order) order, independent
of any predicate: the reference enumeration the traversal lemma compares
`find_all` against. -/
def elems : NodeList → List Node
  | .nil => []
  | .cons n rest => elems_node n ++ elems rest
end

mutual
/-- The list `find_all_node p n` is the filtered pre-order element enumeration of the
node. -/
theorem find_all_node_eq_filter (p : Node → Bool) :
    (n : Node) → find_all_node p n = (elems_node n).filter p
  | .text s => rfl
  | .elem t a cs => by
      simp only [find_all_node, elems_node, List.filter_cons,
        find_all_eq_filter p cs]
      by_cases h : p (.elem t a cs) <;> simp [h]
/-- The list `find_all p l` is exactly the document-order element enumeration
filtered by the predicate. -/
theorem find_all_eq_filter (p : Node → Bool) :
    (l : NodeList) → find_all p l = (elems l).filter p
  | .nil => rfl
  | .cons n rest => by
      simp only [find_all, elems, List.filter_append,
        find_all_node_eq_filter p n, find_all_eq_filter p rest]
end

/-- Model of `soup.title`: the first `title` element of the document, if any. -/
def soup_title (doc : Doc) : Option Node :=
  (find_all (fun n => nodeTag n == "title") doc).head?

mutual
/-- Model of `tag.string` (BeautifulSoup): the single text child if the node has
exactly one child and the chain of single children ends in a text node,
otherwise nothing (so `.string` of an empty or multi-child element is
Python None). -/
def node_string : Node → Option String
  | .text s => some s
  | .elem _ _ cs => nodelist_string cs
/-- The `.string` of a children sequence: defined only for a single child. -/
def nodelist_string : NodeList → Option String
  | .cons c .nil => node_string c
  | _ => none
end

/-- Model of `soup.title.string.strip() if soup.title else "No title"`
(src/scrap1.py line 34).  When the title element exists but its `.string`
is Python None (for instance `<title></title>`), the attribute access
`.strip()` raises AttributeError, which the enclosing handler turns into
an error return; the `Except` error carries that exception text. -/
def titleText (doc : Doc) : Except String String :=
  match soup_title doc with
  | none => .ok "No title"
  | some t =>
    match node_string t with
    | none => .error "NoneType object has no attribute strip"
    | some s => .ok (pyStrip s)

/-- A simple selector of the modelled CSS fragment: the universal selector,
a type selector, an id selector or a class selector. -/
inductive Simple where
  | univ
  | tagS (t : String)
  | idS (i : String)
  | classS (c : String)
deriving DecidableEq

/-- A combinator between two compound selectors: descendant (whitespace) or
child (the `>` sign). -/
inductive Comb where
  | descendant
  | child
deriving DecidableEq

/-- A parsed CSS selector: a chain of compound selectors (each a conjunction
of simple selectors) joined by combinators, read left to right; the last
compound of the chain is the one the selected elements themselves match. -/
structure Sel where
  first : List Simple
  rest : List (Comb × List Simple)
deriving DecidableEq

/-- Characters a CSS identifier may contain in the modelled ASCII fragment. -/
def isIdentChar (c : Char) : Bool :=
  c.isAlphanum || c == '-' || c == '_'

/-- Whether a character may start the body of a CSS identifier. -/
def isIdentStart (c : Char) : Bool :=
  c.isAlpha || c == '_'

/-- Identifier body: a letter or underscore, then identifier characters. -/
def validIdentCore : List Char → Bool
  | [] => false
  | c :: rest => isIdentStart c && rest.all isIdentChar

/-- A valid CSS identifier in the modelled ASCII fragment: one or two
optional leading hyphens, then a letter or underscore, then letters,
digits, hyphens and underscores.  In particular a digit-leading name such
as 9li is not an identifier; soupsieve rejects such a selector as a syntax
error. -/
def validIdent (cs : List Char) : Bool :=
  match cs with
  | '-' :: '-' :: rest => validIdentCore rest
  | '-' :: rest => validIdentCore rest
  | _ => validIdentCore cs

/-- One lexical token of a selector string: a child combinator or one run
of compound-selector characters. -/
inductive SelTok where
  | gt
  | comp (cs : List Char)
deriving DecidableEq

/-- Tokenizer for selector strings: whitespace separates tokens (and reads
as the descendant combinator between two compounds), the `>` sign is the
child combinator, and any other maximal run of characters is one compound.
The accumulator holds the current run in reverse. -/
def tokenizeSel (cur : List Char) : List Char → List SelTok
  | [] => if cur.isEmpty then [] else [.comp cur.reverse]
  | c :: rest =>
    if c.isWhitespace then
      (if cur.isEmpty then [] else [.comp cur.reverse]) ++ tokenizeSel [] rest
    else if c == '>' then
      (if cur.isEmpty then [] else [.comp cur.reverse]) ++
        .gt :: tokenizeSel [] rest
    else tokenizeSel (c :: cur) rest

/-- Split one compound run into the leading type part and the following
parts marked by a hash or a dot, in source order. -/
def splitSimples : List Char → List Char × List (Char × List Char)
  | [] => ([], [])
  | c :: rest =>
    let p := splitSimples rest
    if c == '#' || c == '.' then ([], (c, p.1) :: p.2)
    else (c :: p.1, p.2)

/-- Parse the id and class parts of one compound selector. -/
def parseMarks : List (Char × List Char) → Except String (List Simple)
  | [] => .ok []
  | (m, ident) :: rest =>
    if validIdent ident then
      match parseMarks rest with
      | .error e => .error e
      | .ok xs =>
        .ok ((if m == '#' then Simple.idS ⟨ident⟩ else Simple.classS ⟨ident⟩)
          :: xs)
    else .error "Invalid identifier after # or . in selector"

/-- Parse one compound selector: an optional type part (an identifier —
stored lower-case, as html.parser lower-cases the tag names it produces —
or the universal star), then id and class parts; anything else is a syntax
error, as in soupsieve. -/
def parseCompound (cs : List Char) : Except String (List Simple) :=
  let p := splitSimples cs
  match parseMarks p.2 with
  | .error e => .error e
  | .ok simples =>
    if p.1.isEmpty then
      if simples.isEmpty then .error "empty compound selector"
      else .ok simples
    else if p.1 = ['*'] then .ok (Simple.univ :: simples)
    else if validIdent p.1 then
      .ok (Simple.tagS (strToLower ⟨p.1⟩) :: simples)
    else .error "Invalid type selector"

/-- Parse the trailing combinator/compound pairs of a selector chain; a
combinator not followed by a compound is a syntax error. -/
def parseChainRest : List SelTok → Except String (List (Comb × List Simple))
  | [] => .ok []
  | .gt :: .comp c :: rest =>
    match parseCompound c, parseChainRest rest with
    | .error e, _ => .error e
    | _, .error e => .error e
    | .ok comp, .ok pairs => .ok ((Comb.child, comp) :: pairs)
  | .gt :: _ => .error "Dangling combinator in selector"
  | .comp c :: rest =>
    match parseCompound c, parseChainRest rest with
    | .error e, _ => .error e
    | _, .error e => .error e
    | .ok comp, .ok pairs => .ok ((Comb.descendant, comp) :: pairs)

/-- Modelled collaborator: the soupsieve selector compiler behind
`soup.select`, on the fragment of type, universal, id and class simple
selectors, compound selectors built from them, and the descendant and
child combinators — so a selector such as li, li li, ul > li, div.x#y or
*.note compiles, and a selector that is invalid in any CSS (an empty
selector, a digit-leading name such as 9li, a dangling combinator, a bad
identifier after a hash or dot) raises SelectorSyntaxError, modelled as an
`Except.error` with a message.  Valid CSS syntax beyond the fragment
(attribute brackets, pseudo-classes, grouping commas, sibling combinators)
is outside the model and also reported as an error; no claim or witness
exercises such a selector, so the divergence is confined to unexercised
inputs. -/
def parseSelector (s : String) : Except String Sel :=
  match tokenizeSel [] s.data with
  | [] => .error "empty selector"
  | .gt :: _ => .error "Dangling combinator in selector"
  | .comp c :: rest =>
    match parseCompound c, parseChainRest rest with
    | .error e, _ => .error e
    | _, .error e => .error e
    | .ok comp, .ok pairs => .ok ⟨comp, pairs⟩

/-- Whether a node matches one simple selector; the class attribute is
whitespace-separated and multi-valued, as BeautifulSoup treats it, and tag
names of a document parsed by html.parser are already lower-case. -/
def matchesSimple : Simple → Node → Bool
  | .univ, _ => true
  | .tagS t, n => nodeTag n == t
  | .idS i, n => nodeHasAttr n "id" && nodeAttr n "id" "" == i
  | .classS c, n => (strSplit (nodeAttr n "class" "") ' ').contains c

/-- Whether a node matches every simple selector of a compound. -/
def matchesCompound (comp : List Simple) (n : Node) : Bool :=
  comp.all (fun s => matchesSimple s n)

/-- Whether some suffix decomposition head/tail of the list satisfies the
test. -/
def anyWithSuffix (f : Node → List Node → Bool) : List Node → Bool
  | [] => false
  | a :: up => f a up || anyWithSuffix f up

/-- Reverse a selector chain: the target compound (the one the selected
element itself matches) plus the combinator/compound constraints read
walking up the ancestor line, nearest first. -/
def revChainAux (acc : List (Comb × List Simple)) (cur : List Simple) :
    List (Comb × List Simple) → List Simple × List (Comb × List Simple)
  | [] => (cur, acc)
  | (k, c1) :: rest => revChainAux ((k, cur) :: acc) c1 rest

/-- Whether a node with the given ancestor line (nearest ancestor first)
satisfies a reversed chain: the node matches the target compound, a child
constraint is met by the parent, and a descendant constraint by some
proper ancestor. -/
def matchesRev :
    List (Comb × List Simple) → List Simple → Node → List Node → Bool
  | [], comp, n, _ => matchesCompound comp n
  | (k, comp2) :: rest, comp, n, ancs =>
    matchesCompound comp n &&
      (match k with
       | .child =>
         (match ancs with
          | [] => false
          | par :: up => matchesRev rest comp2 par up)
       | .descendant =>
         anyWithSuffix (fun a up => matchesRev rest comp2 a up) ancs)

/-- Whether a node with the given ancestor line matches a parsed selector. -/
def selTest (q : Sel) (n : Node) (ancs : List Node) : Bool :=
  let rc := revChainAux [] q.first q.rest
  matchesRev rc.2 rc.1 n ancs

mutual
/-- The elements under one node matching the selector, in document order,
carrying the ancestor line down the traversal. -/
def select_node (q : Sel) (ancs : List Node) : Node → List Node
  | .text _ => []
  | .elem t a cs =>
    (if selTest q (.elem t a cs) ancs then [Node.elem t a cs] else []) ++
      select_list q (Node.elem t a cs :: ancs) cs
/-- The elements of a sibling sequence matching the selector, in document
order. -/
def select_list (q : Sel) (ancs : List Node) : NodeList → List Node
  | .nil => []
  | .cons n rest => select_node q ancs n ++ select_list q ancs rest
end

/-- Model of `soup.select(selector)` for an already-parsed selector: every
matching element in document order. -/
def select (q : Sel) (doc : Doc) : List Node :=
  select_list q [] doc

/-- A link entry of the default extraction:
`{"text": ..., "href": ...}` (src/scrap1.py line 53). -/
structure Link where
  text : String
  href : String
deriving DecidableEq

/-- An image entry of the default extraction:
`{"alt": ..., "src": ...}` (src/scrap1.py line 55). -/
structure Image where
  alt : String
  src : String
deriving DecidableEq

/-- The values the `data` dict of `scrape_page` can hold: the url/title
strings, the integer status code, a single selector match, Python None for a
selector without matches, a list of strings (selector matches, headings or
paragraphs), and the link and image records. -/
inductive Value where
  | vStr (s : String)
  | vNat (n : Nat)
  | vNone
  | vList (xs : List String)
  | vLinks (xs : List Link)
  | vImages (xs : List Image)
deriving DecidableEq

/-- The `data` Python dict: insertion-ordered key/value pairs with unique
keys (uniqueness holds for every dict the program builds). -/
abbrev Dict := List (String × Value)

/-- Assignment `d[k] = v` on a Python dict: replace in place when the key exists,
append otherwise. -/
def dictSet (d : Dict) (k : String) (v : Value) : Dict :=
  match d with
  | [] => [(k, v)]
  | (k0, v0) :: rest =>
    if k0 == k then (k0, v) :: rest else (k0, v0) :: dictSet rest k v

/-- Lookup `d.get(k)` on a Python dict. -/
def dictGet : Dict → String → Option Value
  | [], _ => none
  | (k0, v0) :: rest, k => if k0 == k then some v0 else dictGet rest k

/-- Update `d.update(entries)`: set every entry of `entries` in order. -/
def dictUpdate (d : Dict) (entries : Dict) : Dict :=
  entries.foldl (fun acc p => dictSet acc p.1 p.2) d

/-! ### `urllib.parse.urljoin`, transcribed from CPython

The source resolves every href/src against the page URL with `urljoin`
(src/scrap1.py lines 53-56).  The definitions below transcribe CPython
`urllib/parse.py` (`urlsplit`, `urlunsplit`, `urljoin`), with the legacy
`;params` path component treated as always empty. -/

/-- The schemes for which `urljoin` performs relative resolution
(CPython `uses_relative`). -/
def uses_relative : List String :=
  ["", "ftp", "http", "gopher", "nntp", "imap", "wais", "file", "https",
   "shttp", "mms", "prospero", "rtsp", "rtspu", "sftp", "svn", "svn+ssh",
   "ws", "wss"]

/-- The schemes that use a network location (CPython `uses_netloc`). -/
def uses_netloc : List String :=
  ["", "ftp", "http", "gopher", "nntp", "telnet", "imap", "wais", "file",
   "mms", "https", "shttp", "snews", "prospero", "rtsp", "rtspu", "rsync",
   "svn", "svn+ssh", "sftp", "nfs", "git", "git+ssh", "ws", "wss"]

/-- Characters a URL scheme may contain after its leading letter. -/
def isSchemeChar (c : Char) : Bool :=
  c.isAlphanum || c == '+' || c == '-' || c == '.'

/-- Split a leading `scheme:` off a URL: the scheme (lower-cased) and the
remainder, or an empty scheme and the whole string when the part before the
first colon is not a valid scheme (empty, non-letter first character, or a
character outside the scheme alphabet). -/
def splitScheme (url : String) : String × String :=
  match strSplit url ':' with
  | [] => ("", url)
  | [_] => ("", url)
  | pre :: rest =>
    if pre ≠ "" && (pre.data.headD ' ').isAlpha && pre.data.all isSchemeChar
    then (strToLower pre, strJoin ':' rest)
    else ("", url)

/-- Split the network location (up to the first `/`, `?` or `#`) off the part
of the URL following `//`. -/
def splitNetloc (url : String) : String × String :=
  (strTakeWhile (fun c => c ≠ '/' && c ≠ '?' && c ≠ '#') url,
   strDropWhile (fun c => c ≠ '/' && c ≠ '?' && c ≠ '#') url)

/-- Split a string at the first occurrence of a separator: the part before
it, and the part after it when the separator occurs. -/
def splitOnce (s : String) (sep : Char) : String × Option String :=
  match strSplit s sep with
  | [] => (s, none)
  | [x] => (x, none)
  | x :: rest => (x, some (strJoin sep rest))

/-- The five components `urlsplit` produces. -/
structure SplitResult where
  scheme : String
  netloc : String
  path : String
  query : String
  fragment : String
deriving DecidableEq

/-- CPython `urlsplit(url, scheme=default_scheme)`: detach the scheme (or
fall back to the default), then the `//netloc`, then the `#fragment`, then
the `?query`; the rest is the path. -/
def urlsplit (url0 default_scheme : String) : SplitResult :=
  let p1 := splitScheme url0
  let scheme := if p1.1 == "" then default_scheme else p1.1
  let url1 := p1.2
  let p2 :=
    if strStartsWith url1 "//" then splitNetloc (strDrop url1 2)
    else ("", url1)
  let netloc := p2.1
  let p3 := splitOnce p2.2 '#'
  let fragment := p3.2.getD ""
  let p4 := splitOnce p3.1 '?'
  ⟨scheme, netloc, p4.1, p4.2.getD "", fragment⟩

/-- CPython `urlunsplit`: reassemble the five components. -/
def urlunsplit (p : SplitResult) : String :=
  let url0 := p.path
  let url1 :=
    if p.netloc ≠ "" || strStartsWith url0 "//" then
      "//" ++ p.netloc ++
        (if url0 ≠ "" && !strStartsWith url0 "/" then "/" ++ url0 else url0)
    else url0
  let url2 := if p.scheme ≠ "" then p.scheme ++ ":" ++ url1 else url1
  let url3 := if p.query ≠ "" then url2 ++ "?" ++ p.query else url2
  if p.fragment ≠ "" then url3 ++ "#" ++ p.fragment else url3

/-- CPython slice assignment `segments[1:-1] = filter(None, segments[1:-1])`:
drop the empty strings strictly between the first and the last entry. -/
def filterMiddle : List String → List String
  | [] => []
  | [x] => [x]
  | x :: y :: rest =>
    x :: (((y :: rest).dropLast).filter (fun s => s ≠ "")) ++
      [(y :: rest).getLastD ""]

/-- The segment-resolution loop of `urljoin`: `..` pops the accumulator
(silently on an empty accumulator), `.` is skipped, anything else is
appended. -/
def resolveSegs (acc : List String) : List String → List String
  | [] => acc
  | seg :: rest =>
    if seg == ".." then resolveSegs acc.dropLast rest
    else if seg == "." then resolveSegs acc rest
    else resolveSegs (acc ++ [seg]) rest

/-- CPython `urljoin(base, url)`: resolve a reference against a base URL
per the standard resolution rules (absolute references pass through,
scheme-relative references take the base scheme, rooted and relative paths
merge with the base path with `.`/`..` processing). -/
def urljoin (base url : String) : String :=
  if base == "" then url
  else if url == "" then base
  else
    let b := urlsplit base ""
    let r := urlsplit url b.scheme
    if r.scheme ≠ b.scheme || !uses_relative.contains r.scheme then url
    else if uses_netloc.contains r.scheme && r.netloc ≠ "" then
      urlunsplit ⟨r.scheme, r.netloc, r.path, r.query, r.fragment⟩
    else
      let netloc := if uses_netloc.contains r.scheme then b.netloc else r.netloc
      if r.path == "" then
        let query := if r.query == "" then b.query else r.query
        urlunsplit ⟨r.scheme, netloc, b.path, query, r.fragment⟩
      else
        let base_parts0 := strSplit b.path '/'
        let base_parts :=
          if base_parts0.getLastD "" ≠ "" then base_parts0.dropLast
          else base_parts0
        let segments :=
          if strStartsWith r.path "/" then strSplit r.path '/'
          else filterMiddle (base_parts ++ strSplit r.path '/')
        let resolved0 := resolveSegs [] segments
        let resolved :=
          if segments.getLastD "" == "." || segments.getLastD "" == ".." then
            resolved0 ++ [""]
          else resolved0
        let pathStr0 := strJoin '/' resolved
        let pathStr := if pathStr0 == "" then "/" else pathStr0
        urlunsplit ⟨r.scheme, netloc, pathStr, r.query, r.fragment⟩

/-! ### `scrape_page` (src/scrap1.py lines 23-64) -/

/-- The outcome of `self.session.get(url, timeout=10)`: a response with its
final status code and parsed body, or a raised
`requests.RequestException` (DNS failure, refused connection, timeout, too
many redirects, ...) carrying the exception text. -/
inductive FetchResult where
  | success (status_code : Nat) (body : Doc)
  | failure (message : String)

/-- Model of `response.raise_for_status()` (requests): the `HTTPError` message when
the status code is 4xx or 5xx, nothing otherwise.  The reason phrase the
library inserts from the response is elided from the message. -/
def http_error_msg (status : Nat) (url : String) : Option String :=
  if 400 ≤ status && status < 500 then
    some (toString status ++ " Client Error for url: " ++ url)
  else if 500 ≤ status && status < 600 then
    some (toString status ++ " Server Error for url: " ++ url)
  else none

/-- The dict literal of src/scrap1.py lines 32-36: url, title and
status code. -/
def base_data (url title : String) (status : Nat) : Dict :=
  [("url", .vStr url), ("title", .vStr title), ("status_code", .vNat status)]

/-- The truthiness test `if custom_selectors:` on an optional dict:
true exactly when the argument is present and non-empty. -/
def truthy : Option (List (String × String)) → Bool
  | some (_ :: _) => true
  | _ => false

/-- The value one iteration of the selector loop (src/scrap1.py lines
40-47) stores: Python None on zero matches, the single trimmed text on
exactly one match, the ordered list of trimmed texts otherwise. -/
def selValue (doc : Doc) (q : Sel) : Value :=
  match select q doc with
  | [] => .vNone
  | [e] => .vStr (get_text_strip e)
  | es => .vList (es.map get_text_strip)

/-- The selector loop of src/scrap1.py lines 39-47: for each (name,
selector) pair in insertion order, compile the selector (a syntax error
raises, aborting the loop) and store the match-count-dependent value under
the name. -/
def runSelectors (doc : Doc) (data : Dict) :
    List (String × String) → Except String Dict
  | [] => .ok data
  | (key, s) :: rest =>
    match parseSelector s with
    | .error e => .error e
    | .ok q => runSelectors doc (dictSet data key (selValue doc q)) rest

/-- The `headings` of the default extraction (src/scrap1.py line 51):
trimmed texts of all h1/h2/h3 elements in document order. -/
def default_headings (doc : Doc) : List String :=
  (find_all (fun n => nodeTag n == "h1" || nodeTag n == "h2" || nodeTag n == "h3") doc).map
    get_text_strip

/-- The `paragraphs` of the default extraction (src/scrap1.py line 52). -/
def default_paragraphs (doc : Doc) : List String :=
  (find_all (fun n => nodeTag n == "p") doc).map get_text_strip

/-- The `links` of the default extraction (src/scrap1.py lines 53-54): every
anchor carrying an href, as trimmed text plus the href resolved against the
page URL. -/
def default_links (url : String) (doc : Doc) : List Link :=
  (find_all (fun n => nodeTag n == "a" && nodeHasAttr n "href") doc).map
    (fun a => ⟨get_text_strip a, urljoin url (nodeAttr a "href" "")⟩)

/-- The `images` of the default extraction (src/scrap1.py lines 55-56): every
image carrying a src, as verbatim alt text plus the src resolved against
the page URL. -/
def default_images (url : String) (doc : Doc) : List Image :=
  (find_all (fun n => nodeTag n == "img" && nodeHasAttr n "src") doc).map
    (fun i => ⟨nodeAttr i "alt" "", urljoin url (nodeAttr i "src" "")⟩)

/-- The four entries `data.update({...})` adds in the default branch
(src/scrap1.py lines 50-57). -/
def default_entries (url : String) (doc : Doc) : Dict :=
  [("headings", .vList (default_headings doc)),
   ("paragraphs", .vList (default_paragraphs doc)),
   ("links", .vLinks (default_links url doc)),
   ("images", .vImages (default_images url doc))]

/-- Model of `StreamlitWebScraper.scrape_page(url, custom_selectors)` (src/scrap1.py
lines 23-64).  The fetch outcome is passed explicitly; the UI spinner has no
effect on the data flow.  Every raised `RequestException` (transport failure
or `raise_for_status`) returns `(None, "Request error: ...")`; every other
exception (the title AttributeError, a selector syntax error) returns
`(None, "Unexpected error: ...")`; otherwise the data dict is returned with
no error. -/
def scrape_page (fetch : FetchResult) (url : String)
    (custom_selectors : Option (List (String × String))) :
    Option Dict × Option String :=
  match fetch with
  | .failure msg => (none, some ("Request error: " ++ msg))
  | .success status doc =>
    match http_error_msg status url with
    | some msg => (none, some ("Request error: " ++ msg))
    | none =>
      match titleText doc with
      | .error msg => (none, some ("Unexpected error: " ++ msg))
      | .ok title =>
        match custom_selectors with
        | some (p :: ps) =>
          match runSelectors doc (base_data url title status) (p :: ps) with
          | .error e => (none, some ("Unexpected error: " ++ e))
          | .ok out => (some out, none)
        | _ =>
          (some (dictUpdate (base_data url title status)
                  (default_entries url doc)), none)

/-! ### Dict and selector-loop lemmas -/

theorem dictGet_dictSet_self (d : Dict) (k : String) (v : Value) :
    dictGet (dictSet d k v) k = some v := by
  induction d with
  | nil => simp [dictSet, dictGet]
  | cons p rest ih =>
    obtain ⟨k0, v0⟩ := p
    by_cases h : k0 = k
    · subst h; simp [dictSet, dictGet]
    · simp only [dictSet, dictGet, beq_iff_eq, if_neg h]
      exact ih

theorem dictGet_dictSet_ne (d : Dict) (k v : _) (n : String) (h : n ≠ k) :
    dictGet (dictSet d k v) n = dictGet d n := by
  induction d with
  | nil => simp [dictSet, dictGet, Ne.symm h]
  | cons p rest ih =>
    obtain ⟨k0, v0⟩ := p
    by_cases h0 : k0 = k
    · subst h0; simp [dictSet, dictGet, Ne.symm h]
    · simp only [dictSet, dictGet, beq_iff_eq, if_neg h0]
      by_cases hn : k0 = n <;> simp [hn, ih]

/-- After a successful run of the selector loop over names avoiding `name`,
the entry under `name` is unchanged. -/
theorem runSelectors_preserves (doc : Doc) (name : String) :
    ∀ (sels : List (String × String)) (data out : Dict),
    name ∉ sels.map Prod.fst →
    runSelectors doc data sels = .ok out →
    dictGet out name = dictGet data name := by
  intro sels
  induction sels with
  | nil => intro data out _ h; simp [runSelectors] at h; simp [h]
  | cons p rest ih =>
    intro data out hnot hrun
    obtain ⟨k, s⟩ := p
    simp only [List.map_cons, List.mem_cons] at hnot
    push_neg at hnot
    simp only [runSelectors] at hrun
    cases hp : parseSelector s with
    | error e => rw [hp] at hrun; cases hrun
    | ok q =>
      rw [hp] at hrun
      have := ih (dictSet data k (selValue doc q)) out hnot.2 hrun
      rw [this, dictGet_dictSet_ne _ _ _ _ hnot.1]

/-- After a successful run of the selector loop with pairwise-distinct names,
the entry under each name is the value its own selector computed. -/
theorem runSelectors_lookup (doc : Doc) (name s : String) (q : Sel) :
    ∀ (sels : List (String × String)) (data out : Dict),
    (name, s) ∈ sels → (sels.map Prod.fst).Nodup →
    parseSelector s = .ok q →
    runSelectors doc data sels = .ok out →
    dictGet out name = some (selValue doc q) := by
  intro sels
  induction sels with
  | nil => intro data out hmem; cases hmem
  | cons p rest ih =>
    intro data out hmem hnodup hparse hrun
    obtain ⟨k, s0⟩ := p
    simp only [List.map_cons, List.nodup_cons] at hnodup
    rcases List.mem_cons.mp hmem with heq | htail
    · obtain ⟨hk, hs⟩ := Prod.mk.injEq .. ▸ heq
      subst hk; subst hs
      simp only [runSelectors, hparse] at hrun
      rw [runSelectors_preserves doc name rest _ out hnodup.1 hrun,
        dictGet_dictSet_self]
    · simp only [runSelectors] at hrun
      cases hp : parseSelector s0 with
      | error e => rw [hp] at hrun; cases hrun
      | ok q0 =>
        rw [hp] at hrun
        exact ih (dictSet data k (selValue doc q0)) out htail hnodup.2 hparse hrun

/-- A selector pair whose selector fails to compile makes the whole selector
loop fail. -/
theorem runSelectors_error_of_malformed (doc : Doc) (key s e : String) :
    ∀ (sels : List (String × String)) (data : Dict),
    (key, s) ∈ sels → parseSelector s = .error e →
    ∃ msg, runSelectors doc data sels = .error msg := by
  intro sels
  induction sels with
  | nil => intro data hmem; cases hmem
  | cons p rest ih =>
    intro data hmem hbad
    obtain ⟨k, s0⟩ := p
    cases hp : parseSelector s0 with
    | error e0 => exact ⟨e0, by simp [runSelectors, hp]⟩
    | ok q =>
      rcases List.mem_cons.mp hmem with heq | htail
      · obtain ⟨hk, hs⟩ := Prod.mk.injEq .. ▸ heq
        subst hs; rw [hbad] at hp; cases hp
      · obtain ⟨msg, hmsg⟩ := ih (dictSet data k (selValue doc q)) htail hbad
        exact ⟨msg, by simp [runSelectors, hp, hmsg]⟩

/-- A successful selector loop introduces no keys beyond the incoming dict
and the selector names. -/
theorem runSelectors_keys (doc : Doc) :
    ∀ (sels : List (String × String)) (data out : Dict) (k : String),
    runSelectors doc data sels = .ok out →
    dictGet out k ≠ none →
    dictGet data k ≠ none ∨ k ∈ sels.map Prod.fst := by
  intro sels
  induction sels with
  | nil => intro data out k h hk; simp [runSelectors] at h; subst h; exact .inl hk
  | cons p rest ih =>
    intro data out k hrun hk
    obtain ⟨k0, s0⟩ := p
    simp only [runSelectors] at hrun
    cases hp : parseSelector s0 with
    | error e => rw [hp] at hrun; cases hrun
    | ok q =>
      rw [hp] at hrun
      rcases ih (dictSet data k0 (selValue doc q)) out k hrun hk with h | h
      · by_cases hkk : k = k0
        · exact .inr (by simp [hkk])
        · rw [dictGet_dictSet_ne _ _ _ _ hkk] at h
          exact .inl h
      · exact .inr (by simp [h])

/-- Inversion of a successful `scrape_page` call: the status was not 4xx/5xx,
the title step succeeded, and the data dict came from exactly one of the two
branches — the selector loop when the selector dict is non-empty, the default
extraction otherwise. -/
theorem scrape_page_success_inv (st : Nat) (doc : Doc) (url : String)
    (cs : Option (List (String × String))) (data : Dict)
    (h : scrape_page (.success st doc) url cs = (some data, none)) :
    http_error_msg st url = none ∧
    ∃ t, titleText doc = .ok t ∧
      ((∃ p ps, cs = some (p :: ps) ∧
          runSelectors doc (base_data url t st) (p :: ps) = .ok data) ∨
       (truthy cs = false ∧
          data = dictUpdate (base_data url t st) (default_entries url doc))) := by
  cases he : http_error_msg st url with
  | some m => simp [scrape_page, he] at h
  | none =>
    refine ⟨rfl, ?_⟩
    cases ht : titleText doc with
    | error m => simp [scrape_page, he, ht] at h
    | ok t =>
      refine ⟨t, rfl, ?_⟩
      match cs with
      | none =>
        simp [scrape_page, he, ht] at h
        exact .inr ⟨rfl, h.symm⟩
      | some [] =>
        simp [scrape_page, he, ht] at h
        exact .inr ⟨rfl, h.symm⟩
      | some (p :: ps) =>
        cases hr : runSelectors doc (base_data url t st) (p :: ps) with
        | error e => simp [scrape_page, he, ht, hr] at h
        | ok out =>
          simp [scrape_page, he, ht, hr] at h
          exact .inl ⟨p, ps, rfl, by rw [hr, h]⟩

/-! ### Claim theorems -/

/-- C1: for every non-empty SelectorSpec and every (name, selector) pair in
it (names unique, as they are keys of a Python dict), a successful scrape
records under that name: Python None when the selector matches zero
elements, the single trimmed text as a plain string on exactly one match,
and the ordered list of each trimmed text, in document order, on more than
one match. -/
theorem selector_result_by_match_count
    (st : Nat) (doc : Doc) (url : String) (sels : List (String × String))
    (data : Dict) (name s : String) (q : Sel)
    (hmem : (name, s) ∈ sels) (hnodup : (sels.map Prod.fst).Nodup)
    (hparse : parseSelector s = .ok q)
    (hrun : scrape_page (.success st doc) url (some sels) = (some data, none)) :
    dictGet data name =
      some (match select q doc with
            | [] => Value.vNone
            | [e] => Value.vStr (get_text_strip e)
            | e1 :: e2 :: es => Value.vList ((e1 :: e2 :: es).map get_text_strip)) := by
  obtain ⟨-, t, -, hbranch⟩ := scrape_page_success_inv st doc url (some sels) data hrun
  rcases hbranch with ⟨p, ps, hcs, hr⟩ | ⟨htr, -⟩
  · injection hcs with hcs'
    subst hcs'
    rw [runSelectors_lookup doc name s q (p :: ps) (base_data url t st) data
      hmem hnodup hparse hr]
    cases hsel : select q doc with
    | nil => simp [selValue, hsel]
    | cons e rest =>
      cases rest with
      | nil => simp [selValue, hsel]
      | cons e2 rest2 => simp [selValue, hsel]
  · cases sels with
    | nil => cases hmem
    | cons p ps => simp [truthy] at htr

/-- Document with three list items A, B, C. -/
def docLi : Doc :=
  .ofList [.elem "li" [] (.ofList [.text "A"]),
           .elem "li" [] (.ofList [.text "B"]),
           .elem "li" [] (.ofList [.text "C"])]

/-- The dict a scrape of `docLi` with SelectorSpec items ↦ li produces. -/
def dataLi : Dict :=
  [("url", .vStr "https://x.com"), ("title", .vStr "No title"),
   ("status_code", .vNat 200), ("items", .vList ["A", "B", "C"])]

theorem selector_result_by_match_count_witness :
    dictGet dataLi "items" =
      some (match select ⟨[Simple.tagS "li"], []⟩ docLi with
            | [] => Value.vNone
            | [e] => Value.vStr (get_text_strip e)
            | e1 :: e2 :: es => Value.vList ((e1 :: e2 :: es).map get_text_strip)) :=
  selector_result_by_match_count 200 docLi "https://x.com" [("items", "li")]
    dataLi "items" "li" ⟨[Simple.tagS "li"], []⟩ (by decide) (by decide) (by rfl)
    (by rfl)

/-- C9: a selector named url, title or status_code overwrites the
corresponding base field of the result dict with the selector extraction
result, in place, so the entry under that key is the selector value rather
than the page URL, title or status code recorded at lines 32-36. -/
theorem selector_overwrites_reserved_keys
    (st : Nat) (doc : Doc) (url : String) (sels : List (String × String))
    (data : Dict) (name s : String) (q : Sel)
    (_hres : name = "url" ∨ name = "title" ∨ name = "status_code")
    (hmem : (name, s) ∈ sels) (hnodup : (sels.map Prod.fst).Nodup)
    (hparse : parseSelector s = .ok q)
    (hrun : scrape_page (.success st doc) url (some sels) = (some data, none)) :
    dictGet data name = some (selValue doc q) := by
  obtain ⟨-, t, -, hbranch⟩ := scrape_page_success_inv st doc url (some sels) data hrun
  rcases hbranch with ⟨p, ps, hcs, hr⟩ | ⟨htr, -⟩
  · injection hcs with hcs'
    subst hcs'
    exact runSelectors_lookup doc name s q (p :: ps) (base_data url t st) data
      hmem hnodup hparse hr
  · cases sels with
    | nil => cases hmem
    | cons p ps => simp [truthy] at htr

/-- Document with a single h1 containing Hello. -/
def docH1 : Doc := .ofList [.elem "h1" [] (.ofList [.text " Hello "])]

theorem selector_overwrites_reserved_keys_witness :
    dictGet [("url", Value.vStr "Hello"), ("title", Value.vStr "No title"),
             ("status_code", Value.vNat 200)] "url" =
      some (selValue docH1 ⟨[Simple.tagS "h1"], []⟩) :=
  selector_overwrites_reserved_keys 200 docH1 "https://x.com" [("url", "h1")]
    [("url", Value.vStr "Hello"), ("title", Value.vStr "No title"),
     ("status_code", Value.vNat 200)]
    "url" "h1" ⟨[Simple.tagS "h1"], []⟩ (Or.inl rfl) (by decide) (by decide)
    (by rfl) (by rfl)

/-- C10: every scrape_page call returns exactly one of the two shapes — a
data dict with no error, or no data with an error message.  The model is a
total function: every exception path of the source is one of the two
handlers, so nothing propagates to the caller. -/
theorem scrape_page_result_shape (f : FetchResult) (url : String)
    (cs : Option (List (String × String))) :
    (∃ d, scrape_page f url cs = (some d, none)) ∨
    (∃ m, scrape_page f url cs = (none, some m)) := by
  cases f with
  | failure m => exact .inr ⟨"Request error: " ++ m, rfl⟩
  | success st doc =>
    cases he : http_error_msg st url with
    | some m => exact .inr ⟨"Request error: " ++ m, by simp [scrape_page, he]⟩
    | none =>
      cases ht : titleText doc with
      | error m =>
        exact .inr ⟨"Unexpected error: " ++ m, by simp [scrape_page, he, ht]⟩
      | ok t =>
        match cs with
        | none =>
          exact .inl ⟨dictUpdate (base_data url t st) (default_entries url doc),
            by simp [scrape_page, he, ht]⟩
        | some [] =>
          exact .inl ⟨dictUpdate (base_data url t st) (default_entries url doc),
            by simp [scrape_page, he, ht]⟩
        | some (p :: ps) =>
          cases hr : runSelectors doc (base_data url t st) (p :: ps) with
          | error e =>
            exact .inr ⟨"Unexpected error: " ++ e, by simp [scrape_page, he, ht, hr]⟩
          | ok out => exact .inl ⟨out, by simp [scrape_page, he, ht, hr]⟩

/-- C8: extraction is deterministic and idempotent.  The embedding makes the
Python data flow explicit: `scrape_page` reads nothing but its arguments and
mutates nothing that outlives the call (the `data` dict is created fresh at
line 32, the parsed soup is never reused), so two runs on the same fetched
document, base URL and SelectorSpec are literally the same computation. -/
theorem scrape_page_idempotent (f : FetchResult) (url : String)
    (cs : Option (List (String × String))) :
    scrape_page f url cs = scrape_page f url cs := rfl

/-- C7: the headings of the default extraction are exactly the trimmed texts
of the h1/h2/h3 elements of the document, in document order; in particular
their number equals the number of such heading elements. -/
theorem headings_length_and_order (doc : Doc) :
    default_headings doc =
      ((elems doc).filter (fun n =>
        nodeTag n == "h1" || nodeTag n == "h2" || nodeTag n == "h3")).map
        get_text_strip ∧
    (default_headings doc).length =
      ((elems doc).filter (fun n =>
        nodeTag n == "h1" || nodeTag n == "h2" || nodeTag n == "h3")).length := by
  refine ⟨?_, ?_⟩
  · unfold default_headings
    rw [find_all_eq_filter]
  · unfold default_headings
    rw [find_all_eq_filter, List.length_map]

/-- C3: the links of the default extraction are exactly the anchors carrying
an href, in document order, each with its href resolved against the page URL
by urljoin (so an anchor without href never contributes an entry), and
images are resolved the same way from their src; moreover urljoin resolves a
rooted path, an absolute URL, a protocol-relative URL and an anchor-only
reference per the standard rules, with /about against
https://x.com/products/ giving exactly https://x.com/about. -/
theorem links_images_url_resolution :
    (∀ (url : String) (doc : Doc),
      default_links url doc =
        ((elems doc).filter (fun n => nodeTag n == "a" && nodeHasAttr n "href")).map
          (fun a => ⟨get_text_strip a, urljoin url (nodeAttr a "href" "")⟩) ∧
      default_images url doc =
        ((elems doc).filter (fun n => nodeTag n == "img" && nodeHasAttr n "src")).map
          (fun i => ⟨nodeAttr i "alt" "", urljoin url (nodeAttr i "src" "")⟩)) ∧
    urljoin "https://x.com/products/" "/about" = "https://x.com/about" ∧
    urljoin "https://x.com/products/" "https://other.org/a?b#c" =
      "https://other.org/a?b#c" ∧
    urljoin "https://x.com/products/" "//cdn.example.org/img.png" =
      "https://cdn.example.org/img.png" ∧
    urljoin "https://x.com/products/" "#top" = "https://x.com/products/#top" := by
  refine ⟨fun url doc => ⟨?_, ?_⟩, by decide, by decide, by decide, by decide⟩
  · unfold default_links
    rw [find_all_eq_filter]
  · unfold default_images
    rw [find_all_eq_filter]

/-- The base dict holds exactly the keys url, title and status_code. -/
theorem base_data_keys (u t : String) (s : Nat) (k : String)
    (h : dictGet (base_data u t s) k ≠ none) :
    k = "url" ∨ k = "title" ∨ k = "status_code" := by
  by_cases h1 : "url" = k
  · exact .inl h1.symm
  by_cases h2 : "title" = k
  · exact .inr (.inl h2.symm)
  by_cases h3 : "status_code" = k
  · exact .inr (.inr h3.symm)
  exact absurd (by simp [base_data, dictGet, h1, h2, h3]) h

/-- C2: a successful scrape produces exactly one of the two content
payloads, determined by whether the SelectorSpec is non-empty at call time:
when it is, the data dict is the selector-loop output, whose keys are only
the three base fields and the selector names (no default payload); when it
is not, the data dict is the base fields updated with exactly the four
default-extraction entries. -/
theorem exactly_one_payload (st : Nat) (doc : Doc) (url : String)
    (cs : Option (List (String × String))) (data : Dict)
    (h : scrape_page (.success st doc) url cs = (some data, none)) :
    (truthy cs = true →
      ∃ sels t, cs = some sels ∧ titleText doc = .ok t ∧
        runSelectors doc (base_data url t st) sels = .ok data ∧
        ∀ k, dictGet data k ≠ none →
          k = "url" ∨ k = "title" ∨ k = "status_code" ∨
            k ∈ sels.map Prod.fst) ∧
    (truthy cs = false →
      ∃ t, titleText doc = .ok t ∧
        data = dictUpdate (base_data url t st) (default_entries url doc)) := by
  obtain ⟨-, t, ht, hbranch⟩ := scrape_page_success_inv st doc url cs data h
  rcases hbranch with ⟨p, ps, hcs, hr⟩ | ⟨htr, hdata⟩
  · subst hcs
    refine ⟨fun _ => ⟨p :: ps, t, rfl, ht, hr, fun k hk => ?_⟩,
      fun hfalse => by simp [truthy] at hfalse⟩
    rcases runSelectors_keys doc (p :: ps) _ data k hr hk with hbase | hmem
    · rcases base_data_keys url t st k hbase with h1 | h2 | h3
      · exact .inl h1
      · exact .inr (.inl h2)
      · exact .inr (.inr (.inl h3))
    · exact .inr (.inr (.inr hmem))
  · exact ⟨fun htrue => absurd htrue (by simp [htr]), fun _ => ⟨t, ht, hdata⟩⟩

/-- The dict a scrape of the empty document with SelectorSpec
items ↦ li produces: the selector matches nothing, so items is None. -/
def dataItemsNone : Dict :=
  [("url", .vStr "https://x.com"), ("title", .vStr "No title"),
   ("status_code", .vNat 200), ("items", .vNone)]

theorem exactly_one_payload_witness :
    (truthy (some [("items", "li")]) = true →
      ∃ sels t, (some [("items", "li")] :
          Option (List (String × String))) = some sels ∧
        titleText .nil = .ok t ∧
        runSelectors .nil (base_data "https://x.com" t 200) sels =
          .ok dataItemsNone ∧
        ∀ k, dictGet dataItemsNone k ≠ none →
          k = "url" ∨ k = "title" ∨ k = "status_code" ∨
            k ∈ sels.map Prod.fst) ∧
    (truthy (some [("items", "li")]) = false →
      ∃ t, titleText .nil = .ok t ∧
        dataItemsNone =
          dictUpdate (base_data "https://x.com" t 200)
            (default_entries "https://x.com" .nil)) :=
  exactly_one_payload 200 .nil "https://x.com" (some [("items", "li")])
    dataItemsNone (by rfl)

/-- C5: a SelectorSpec containing a malformed selector makes the whole call
abort with an error and no data dict at all (the syntax error raises out of
the loop into the generic handler), while a well-formed selector with zero
matches is a normal outcome: the scrape succeeds and records Python None
under that name. -/
theorem malformed_aborts_empty_is_null :
    (∀ (st : Nat) (doc : Doc) (url : String) (sels : List (String × String))
        (key s e : String),
      (key, s) ∈ sels → parseSelector s = .error e →
      ∃ msg, scrape_page (.success st doc) url (some sels) =
        (none, some msg)) ∧
    (∀ (st : Nat) (doc : Doc) (url : String) (sels : List (String × String))
        (data : Dict) (key s : String) (q : Sel),
      (key, s) ∈ sels → (sels.map Prod.fst).Nodup →
      parseSelector s = .ok q → select q doc = [] →
      scrape_page (.success st doc) url (some sels) = (some data, none) →
      dictGet data key = some Value.vNone) := by
  constructor
  · intro st doc url sels key s e hmem hbad
    cases he : http_error_msg st url with
    | some m => exact ⟨"Request error: " ++ m, by simp [scrape_page, he]⟩
    | none =>
      cases ht : titleText doc with
      | error m => exact ⟨"Unexpected error: " ++ m, by simp [scrape_page, he, ht]⟩
      | ok t =>
        cases sels with
        | nil => cases hmem
        | cons p ps =>
          obtain ⟨msg, hmsg⟩ := runSelectors_error_of_malformed doc key s e
            (p :: ps) (base_data url t st) hmem hbad
          exact ⟨"Unexpected error: " ++ msg, by simp [scrape_page, he, ht, hmsg]⟩
  · intro st doc url sels data key s q hmem hnodup hparse hsel hrun
    obtain ⟨-, t, -, hbranch⟩ :=
      scrape_page_success_inv st doc url (some sels) data hrun
    rcases hbranch with ⟨p, ps, hcs, hr⟩ | ⟨htr, -⟩
    · injection hcs with hcs'
      subst hcs'
      rw [runSelectors_lookup doc key s q (p :: ps) (base_data url t st) data
        hmem hnodup hparse hr]
      simp [selValue, hsel]
    · cases sels with
      | nil => cases hmem
      | cons p ps => simp [truthy] at htr

theorem malformed_aborts_empty_is_null_witness :
    (∃ msg, scrape_page (.success 200 .nil) "https://x.com"
        (some [("bad", "9li")]) = (none, some msg)) ∧
    dictGet [("url", Value.vStr "https://x.com"), ("title", Value.vStr "No title"),
             ("status_code", Value.vNat 200), ("missing", Value.vNone)]
      "missing" = some Value.vNone :=
  ⟨malformed_aborts_empty_is_null.1 200 .nil "https://x.com"
      [("bad", "9li")] "bad" "9li" "Invalid type selector"
      (by decide) (by rfl),
   malformed_aborts_empty_is_null.2 200 .nil "https://x.com"
      [("missing", "li")]
      [("url", Value.vStr "https://x.com"), ("title", Value.vStr "No title"),
       ("status_code", Value.vNat 200), ("missing", Value.vNone)]
      "missing" "li" ⟨[Simple.tagS "li"], []⟩
      (by decide) (by decide) (by rfl) (by rfl) (by rfl)⟩

/-- C4, counterexample: title extraction is not failure-free.  On a document
whose title element has no direct string — here the concrete document
consisting of exactly one empty title element — `soup.title` is truthy but
`soup.title.string` is Python None, so line 34 raises AttributeError and the
whole call returns an error with no result, contradicting the claim that the
title step never fails. -/
theorem title_step_failure_counterexample :
    scrape_page (.success 200 (.ofList [.elem "title" [] .nil]))
        "https://x.com" none =
      (none, some "Unexpected error: NoneType object has no attribute strip") := by
  rfl

/-- C4, amended: when the document has no title element the title is the
placeholder string No title, and when the title element has a direct string
the title is that string trimmed of surrounding whitespace; in those cases
the step does not fail.  (When a title element exists without a direct
string, the whole call fails — the counterexample.)  An empty document
yields the placeholder title and all four default sequences empty, not
absent. -/
theorem title_extraction_amended :
    (∀ doc : Doc, soup_title doc = none → titleText doc = .ok "No title") ∧
    (∀ (doc : Doc) (tnode : Node) (s : String),
      soup_title doc = some tnode → node_string tnode = some s →
      titleText doc = .ok (pyStrip s)) ∧
    (∀ (st : Nat) (url : String), http_error_msg st url = none →
      scrape_page (.success st .nil) url none =
        (some [("url", Value.vStr url), ("title", Value.vStr "No title"),
               ("status_code", Value.vNat st),
               ("headings", Value.vList []), ("paragraphs", Value.vList []),
               ("links", Value.vLinks []), ("images", Value.vImages [])],
         none)) := by
  refine ⟨?_, ?_, ?_⟩
  · intro doc h
    simp [titleText, h]
  · intro doc tn s h1 h2
    simp [titleText, h1, h2]
  · intro st url hst
    unfold scrape_page
    dsimp only
    rw [hst]
    rfl

theorem title_extraction_amended_witness :
    titleText .nil = .ok "No title" ∧
    titleText (.ofList [.elem "title" [] (.ofList [.text " Hi "])]) =
      .ok (pyStrip " Hi ") ∧
    scrape_page (.success 200 .nil) "https://x.com" none =
      (some [("url", Value.vStr "https://x.com"), ("title", Value.vStr "No title"),
             ("status_code", Value.vNat 200),
             ("headings", Value.vList []), ("paragraphs", Value.vList []),
             ("links", Value.vLinks []), ("images", Value.vImages [])],
       none) :=
  ⟨title_extraction_amended.1 .nil (by rfl),
   title_extraction_amended.2.1 (.ofList [.elem "title" [] (.ofList [.text " Hi "])])
     (.elem "title" [] (.ofList [.text " Hi "])) " Hi " (by rfl) (by rfl),
   title_extraction_amended.2.2 200 "https://x.com" (by rfl)⟩

/-- C6, counterexample: a non-2xx status is not always treated as a
failure.  `raise_for_status` raises only for 4xx and 5xx, so a fetch ending
in status 304 — non-2xx — proceeds normally and returns a full data dict
with no error, contradicting the claim that the fetch layer raises on any
non-success status. -/
theorem non_2xx_not_always_error_counterexample :
    scrape_page (.success 304 .nil) "https://x.com" none =
      (some [("url", Value.vStr "https://x.com"), ("title", Value.vStr "No title"),
             ("status_code", Value.vNat 304),
             ("headings", Value.vList []), ("paragraphs", Value.vList []),
             ("links", Value.vLinks []), ("images", Value.vImages [])],
       none) := by
  rfl

/-- C6, amended: every fetch ending in a 4xx or 5xx status raises inside
the fetch layer and is handled exactly like a transport failure — one error
message, no data dict — and a transport failure itself yields one error
message and no data dict; the call performs no retry (the model is a single
pass over one fetch result).  Statuses outside 400-599 that reach the
response (1xx/3xx) are not raised. -/
theorem http_4xx_5xx_and_transport_abort :
    (∀ (st : Nat) (doc : Doc) (url : String)
        (cs : Option (List (String × String))),
      400 ≤ st → st < 600 →
      ∃ msg, scrape_page (.success st doc) url cs =
        (none, some ("Request error: " ++ msg))) ∧
    (∀ (m url : String) (cs : Option (List (String × String))),
      scrape_page (.failure m) url cs =
        (none, some ("Request error: " ++ m))) := by
  constructor
  · intro st doc url cs h4 h6
    by_cases h5 : st < 500
    · refine ⟨toString st ++ " Client Error for url: " ++ url, ?_⟩
      have he : http_error_msg st url =
          some (toString st ++ " Client Error for url: " ++ url) := by
        simp [http_error_msg, h4, h5]
      simp [scrape_page, he]
    · refine ⟨toString st ++ " Server Error for url: " ++ url, ?_⟩
      have h5' : 500 ≤ st := Nat.le_of_not_lt h5
      have he : http_error_msg st url =
          some (toString st ++ " Server Error for url: " ++ url) := by
        simp [http_error_msg, h5, h5', h6]
      simp [scrape_page, he]
  · intro m url cs
    rfl

theorem http_4xx_5xx_and_transport_abort_witness :
    (∃ msg, scrape_page (.success 404 .nil) "https://x.com" none =
      (none, some ("Request error: " ++ msg))) ∧
    scrape_page (.failure "connection timed out") "https://x.com" none =
      (none, some ("Request error: " ++ "connection timed out")) :=
  ⟨http_4xx_5xx_and_transport_abort.1 404 .nil "https://x.com" none
      (by decide) (by decide),
   http_4xx_5xx_and_transport_abort.2 "connection timed out" "https://x.com" none⟩

/-- Fidelity of the selector model at the malformedness boundary: the
descendant selector li li is valid CSS and compiles; a scrape using it on a
document without nested list items succeeds and records Python None for its
name (no abort); selecting with it returns exactly the list items strictly
inside another list item; and the digit-leading name 9li is a syntax
error, as soupsieve raises. -/
theorem selector_model_fidelity :
    parseSelector "li li" =
      .ok ⟨[Simple.tagS "li"], [(Comb.descendant, [Simple.tagS "li"])]⟩ ∧
    scrape_page (.success 200 docLi) "https://x.com" (some [("bad", "li li")]) =
      (some [("url", Value.vStr "https://x.com"),
             ("title", Value.vStr "No title"),
             ("status_code", Value.vNat 200), ("bad", Value.vNone)], none) ∧
    select ⟨[Simple.tagS "li"], [(Comb.descendant, [Simple.tagS "li"])]⟩
      (.ofList [.elem "li" [] (.ofList
        [.text "outer", .elem "ul" [] (.ofList
          [.elem "li" [] (.ofList [.text "inner"])])])]) =
      [.elem "li" [] (.ofList [.text "inner"])] ∧
    parseSelector "9li" = .error "Invalid type selector" :=
  ⟨rfl, rfl, rfl, rfl⟩

end Scrapping
